import Mathlib

/-!
Shallow embedding of `src/main.py`, the degraded-availability document access
layer of the Song Pengsawang API backend.

Modelling conventions:
- timestamps (`datetime.now(timezone.utc)`) are `Nat` values passed explicitly:
  `now` is the instant an operation runs, `tload` the module-import instant at
  which the `SEED_METRICS` literal captured its `last_updated`;
- pydantic models become Lean structures; constructing a model from a raw
  field dict becomes a `validate` function returning `Except Err _`
  (`ValidationError` for a pydantic failure);
- the `database` module (not part of the source tree) is reached through the
  `Fetch` outcome type for reads and an `Except String String` outcome for the
  contact insert; `Fetch.unavailable` covers both `db is None` stubs raising
  and an unconfigured store;
- Python `list[:k]` slicing is `pySliceTo` (negative `k` drops from the end);
- the list comprehensions building pydantic records loop left to right and
  raise at the first failure, which is `mapE`.
-/

set_option maxRecDepth 8000

deriving instance DecidableEq for Except

namespace Backend

/-- Error taxonomy of spec §7: validation failure, unconfigured store,
or a store operation that itself failed. -/
inductive Err where
  | validationError : String → Err
  | storeUnavailable : Err
  | storeError : String → Err
deriving DecidableEq, Repr

/-- Left-to-right effectful map over a list, stopping at the first error:
the semantics of the Python `for` loops building `items` (and of list
comprehensions over a validating constructor). -/
def mapE {α β ε : Type} (f : α → Except ε β) : List α → Except ε (List β)
  | [] => .ok []
  | x :: xs =>
    match f x with
    | .error e => .error e
    | .ok y =>
      match mapE f xs with
      | .error e => .error e
      | .ok ys => .ok (y :: ys)

/-- Python `xs[:k]`: for `k ≥ 0` the first `k` elements, for `k < 0` all but
the last `-k` elements (empty when `len(xs) + k ≤ 0`). -/
def pySliceTo {α : Type} (k : Int) (xs : List α) : List α :=
  if 0 ≤ k then xs.take k.toNat else xs.take ((xs.length : Int) + k).toNat

/-- pydantic `HttpUrl`: syntactically an http(s) URL. Modelled as a scheme
check with a non-empty remainder; every URL in the source satisfies it and the
claims only need that some strings fail it. -/
def isHttpUrl (s : String) : Bool :=
  ("http://".toList.isPrefixOf s.toList && 7 < s.toList.length) ||
    ("https://".toList.isPrefixOf s.toList && 8 < s.toList.length)

/-- Split a character sequence at its unique `@`, if it has exactly one. -/
def emailSplit : List Char → Option (List Char × List Char)
  | [] => none
  | c :: cs =>
    if c = '@' then (if cs.contains '@' then none else some ([], cs))
    else
      match emailSplit cs with
      | some (lp, dom) => some (c :: lp, dom)
      | none => none

/-- pydantic `EmailStr`: one `@` separating a non-empty local part from a
domain containing a dot. -/
def isEmail (s : String) : Bool :=
  match emailSplit s.toList with
  | some (lp, dom) => !lp.isEmpty && dom.contains '.' && 2 < dom.length
  | none => false

/-- Typed `Metric` record (pydantic model, main.py lines 31-36). -/
structure Metric where
  platform : String
  followers : Int
  avg_views : Int
  engagement_rate : Rat
  last_updated : Nat
deriving DecidableEq, Repr

/-- Raw metric field dict as stored / seeded; `none` = key absent. -/
structure MetricDoc where
  platform : Option String := none
  followers : Option Int := none
  avg_views : Option Int := none
  engagement_rate : Option Rat := none
  last_updated : Option Nat := none
deriving DecidableEq, Repr

/-- A metric document as returned by the store: raw fields plus the internal
identifier (the `_id` key, popped before validation). -/
structure StoreMetricDoc where
  oid : Option String := none
  fields : MetricDoc := {}
deriving DecidableEq, Repr

/-- `Metric(**d)`: required fields present, numeric lower bounds `ge=0`,
`last_updated` defaulting to construction time. -/
def Metric.validate (d : MetricDoc) (now : Nat) : Except Err Metric :=
  match d.platform, d.followers, d.avg_views, d.engagement_rate with
  | some p, some f, some v, some r =>
    if f < 0 then .error (.validationError "followers")
    else if v < 0 then .error (.validationError "avg_views")
    else if r < 0 then .error (.validationError "engagement_rate")
    else .ok { platform := p, followers := f, avg_views := v,
               engagement_rate := r, last_updated := d.last_updated.getD now }
  | _, _, _, _ => .error (.validationError "missing required field")

/-- Typed `Reel` record (pydantic model, main.py lines 38-46). -/
structure Reel where
  id : Option String
  title : String
  thumbnail_url : String
  video_url : Option String
  views : Int
  likes : Int
  hashtags : List String
  posted_at : Nat
deriving DecidableEq, Repr

/-- Raw reel field dict as stored / seeded; `none` = key absent. -/
structure ReelDoc where
  title : Option String := none
  thumbnail_url : Option String := none
  video_url : Option String := none
  views : Option Int := none
  likes : Option Int := none
  hashtags : Option (List String) := none
  posted_at : Option Nat := none
deriving DecidableEq, Repr

/-- A reel document as returned by the store: raw fields plus the internal
identifier (`str(d.get("_id")) if d.get("_id") else None`). -/
structure StoreReelDoc where
  oid : Option String := none
  fields : ReelDoc := {}
deriving DecidableEq, Repr

/-- `Reel(id=rid, **d)`: `title` and a well-formed `thumbnail_url` required,
optional well-formed `video_url`, counters defaulting to 0, `hashtags` to `[]`,
`posted_at` to construction time. -/
def Reel.validate (rid : Option String) (d : ReelDoc) (now : Nat) :
    Except Err Reel :=
  match d.title, d.thumbnail_url with
  | some t, some u =>
    if isHttpUrl u = false then .error (.validationError "thumbnail_url")
    else
      match d.video_url with
      | some vu =>
        if isHttpUrl vu = false then .error (.validationError "video_url")
        else .ok { id := rid, title := t, thumbnail_url := u,
                   video_url := some vu, views := d.views.getD 0,
                   likes := d.likes.getD 0, hashtags := d.hashtags.getD [],
                   posted_at := d.posted_at.getD now }
      | none =>
        .ok { id := rid, title := t, thumbnail_url := u, video_url := none,
              views := d.views.getD 0, likes := d.likes.getD 0,
              hashtags := d.hashtags.getD [], posted_at := d.posted_at.getD now }
  | _, _ => .error (.validationError "missing required field")

/-- The `SEED_METRICS` literal (main.py lines 71-79); `tload` is the
module-load instant captured by its `datetime.now(timezone.utc)` entry. -/
def SEED_METRICS (tload : Nat) : List MetricDoc :=
  [{ platform := some "Instagram", followers := some 1250000,
     avg_views := some 1500000, engagement_rate := some (mkRat 87 10),
     last_updated := some tload }]

/-- The `SEED_REELS` literal (main.py lines 81-98): two raw reel dicts with
no `posted_at` key. -/
def SEED_REELS : List ReelDoc :=
  [{ title := some "Pad work with a twist",
     thumbnail_url :=
       some "https://images.unsplash.com/photo-1605296867304-46d5465a13f1?q=80&w=1200&auto=format&fit=crop",
     video_url := some "https://www.example.com/reel1.mp4",
     views := some 2300000, likes := some 340000,
     hashtags := some ["#muaythai", "#twerk", "#funnytraining"] },
   { title := some "Elbows, knees & giggles",
     thumbnail_url :=
       some "https://images.unsplash.com/photo-1544916601-0aa3f82a1f2d?q=80&w=1200&auto=format&fit=crop",
     video_url := some "https://www.example.com/reel2.mp4",
     views := some 1800000, likes := some 280000,
     hashtags := some ["#muaythai", "#reels", "#songpengsawang"] }]

/-- Outcome of a `get_documents` read attempt on a collection:
the store is unconfigured (`db is None`, the import-failure stub raises),
the configured store raised, or it returned the collection's documents. -/
inductive Fetch (α : Type) where
  | unavailable : Fetch α
  | failure : String → Fetch α
  | docs : List α → Fetch α

/-- The limit main.py passes to the store read: `min(limit, 50)`
(main.py line 152). -/
def storeReadLimit (lim : Int) : Int := min lim 50

/-- Modelled from the spec: `get_documents` lives in the `database` module,
which is not part of the source tree. Spec §4.3: reads up to `limit` records
(silently capped at a hard ceiling of 50 regardless of caller-requested value)
matching the filter (empty filter = all, as in both call sites); edge case:
if `limit` ≤ 0 the result is empty, not an error. -/
def get_documents {α : Type} (coll : List α) (lim : Int) : List α :=
  if lim ≤ 0 then [] else coll.take (min lim 50).toNat

/-- The `try:` block body of `GET /metrics` (main.py lines 137-143): read all
documents of the metric collection, pop each `_id` and build `Metric(**d)`;
its first exception, store or validation, aborts the block. -/
def metricsAttempt (st : Fetch StoreMetricDoc) (now : Nat) :
    Except Err (List Metric) :=
  match st with
  | .unavailable => .error .storeUnavailable
  | .failure m => .error (.storeError m)
  | .docs ds => mapE (fun d => Metric.validate d.fields now) ds

/-- `GET /metrics` handler (main.py lines 134-146). The whole body sits in
`try: ... except Exception:`, so any failure — a store failure or a
`ValidationError` from `Metric(**d)` — lands in the fallback branch, which
rebuilds the seed metrics through the same validating constructor. -/
def get_metrics (st : Fetch StoreMetricDoc) (now tload : Nat) :
    Except Err (List Metric) :=
  match metricsAttempt st now with
  | .ok items => .ok items
  | .error _ => mapE (fun m => Metric.validate m now) (SEED_METRICS tload)

/-- The `try:` block body of `GET /reels` (main.py lines 151-158): store read
with `min(limit, 50)`, then per-document id projection and `Reel` validation;
its first exception aborts the block. -/
def reelsAttempt (lim : Int) (st : Fetch StoreReelDoc) (now : Nat) :
    Except Err (List Reel) :=
  match st with
  | .unavailable => .error .storeUnavailable
  | .failure m => .error (.storeError m)
  | .docs ds =>
    mapE (fun d => Reel.validate d.oid d.fields now)
      (get_documents ds (storeReadLimit lim))

/-- `GET /reels` handler (main.py lines 149-160): the read attempt, and on
any exception the fallback `[Reel(**r) for r in SEED_REELS][:limit]`. -/
def get_reels (lim : Int) (st : Fetch StoreReelDoc) (now : Nat) :
    Except Err (List Reel) :=
  match reelsAttempt lim st now with
  | .ok items => .ok items
  | .error _ =>
    match mapE (fun r => Reel.validate none r now) SEED_REELS with
    | .ok items => .ok (pySliceTo lim items)
    | .error e => .error e

/-- The Python default of the `limit` query parameter
(`async def get_reels(limit: int = 20)`). -/
def reelsDefaultLimit : Int := 20

/-- Stored contact document: the validated payload fields plus the
server-assigned `received_at` added by `submit_contact` before insertion. -/
structure ContactDoc where
  name : String
  email : String
  company : Option String
  message : String
  topic : Option String
  received_at : Nat
deriving DecidableEq, Repr

/-- State of the three document collections of a configured store. -/
structure DB where
  metric : List MetricDoc
  reel : List ReelDoc
  contact : List ContactDoc
deriving DecidableEq, Repr

/-- Fault injection for the startup path: whether an index-creation call in
`ensure_indexes` raises, and whether the first `create_document` call of the
metric (resp. reel) seeding loop raises. A failed insert stores nothing. -/
structure Faults where
  indexFail : Bool := false
  metricInsertFail : Bool := false
  reelInsertFail : Bool := false
deriving DecidableEq, Repr

/-- Result of running one Python statement sequence against the store:
either it returned normally or it raised, in both cases leaving the store in
the state reached so far. -/
inductive StepResult where
  | ok : Option DB → StepResult
  | raised : Option DB → String → StepResult
deriving DecidableEq, Repr

/-- The store state a step left behind, whether or not it raised. -/
def StepResult.state : StepResult → Option DB
  | .ok d => d
  | .raised d _ => d

/-- `ensure_indexes` (main.py lines 63-68): returns at once when `db is None`;
otherwise issues index creations, which may raise. Index structures themselves
are not modelled — only normal return versus raising. -/
def ensure_indexes (f : Faults) (db : Option DB) : StepResult :=
  match db with
  | none => .ok none
  | some s => if f.indexFail then .raised (some s) "index error" else .ok (some s)

/-- The metric half of `seed_data` (main.py lines 104-106): insert the seed
metrics when the collection is empty; a raising insert stores nothing. -/
def seedMetricsStep (f : Faults) (tload : Nat) (s : DB) :
    Except (DB × String) DB :=
  if s.metric.length = 0 then
    if f.metricInsertFail then .error (s, "metric insert error")
    else .ok { s with metric := s.metric ++ SEED_METRICS tload }
  else .ok s

/-- The reel half of `seed_data` (main.py lines 107-109). -/
def seedReelsStep (f : Faults) (s : DB) : Except (DB × String) DB :=
  if s.reel.length = 0 then
    if f.reelInsertFail then .error (s, "reel insert error")
    else .ok { s with reel := s.reel ++ SEED_REELS }
  else .ok s

/-- `seed_data` (main.py lines 101-109) with fault injection: no-op when
`db is None`; otherwise the metric step runs first and an exception in it
propagates, skipping the reel step. -/
def seed_data_f (f : Faults) (tload : Nat) (db : Option DB) : StepResult :=
  match db with
  | none => .ok none
  | some s =>
    match seedMetricsStep f tload s with
    | .error (d, m) => .raised (some d) m
    | .ok s1 =>
      match seedReelsStep f s1 with
      | .error (d, m) => .raised (some d) m
      | .ok s2 => .ok (some s2)

/-- `seed_data` as called with no operation failing. -/
def seed_data (tload : Nat) (db : Option DB) : Option DB :=
  (seed_data_f {} tload db).state

/-- `on_startup` (main.py lines 112-119): `ensure_indexes(); seed_data()`
inside a single `try/except Exception: pass`, so an exception anywhere skips
the rest of the sequence but never propagates. Returns the final store state. -/
def on_startup (f : Faults) (tload : Nat) (db : Option DB) : Option DB :=
  match ensure_indexes f db with
  | .raised d _ => d
  | .ok d => (seed_data_f f tload d).state

/-- Raw contact payload as sent by the client; `received_at` is an extra key
a client may try to smuggle in (pydantic drops unknown keys). -/
structure ContactPayloadRaw where
  name : Option String := none
  email : Option String := none
  company : Option String := none
  message : Option String := none
  topic : Option String := none
  received_at : Option Nat := none
deriving DecidableEq, Repr

/-- Typed `ContactMessage` (pydantic model, main.py lines 48-53): note it has
no `received_at` field at all. -/
structure ContactMessage where
  name : String
  email : String
  company : Option String := none
  message : String
  topic : Option String := none
deriving DecidableEq, Repr

/-- `ContactMessage(**raw)`: `name`, `email`, `message` required, `email`
syntactically valid; unknown keys such as `received_at` are ignored. -/
def ContactMessage.validate (raw : ContactPayloadRaw) :
    Except Err ContactMessage :=
  match raw.name, raw.email, raw.message with
  | some n, some e, some m =>
    if isEmail e = false then .error (.validationError "email")
    else .ok { name := n, email := e, company := raw.company, message := m,
               topic := raw.topic }
  | _, _, _ => .error (.validationError "missing required field")

/-- What `POST /contact` sends back: the success dict `{status: "ok", id}` or
an `HTTPException(status_code, detail)`. -/
inductive ContactResponse where
  | ok : Option String → ContactResponse
  | httpError : Nat → String → ContactResponse
deriving DecidableEq, Repr

/-- `submit_contact` (main.py lines 163-174): dump the validated payload, set
`data["received_at"]` to the current server time, then — when the store is
configured — insert and return the new id, turning an insert exception `e`
into `HTTPException(500, str(e))`; when unconfigured, return
`{status: "ok", id: None}` without touching the store. The second component
is the document the store ended up holding, if any. -/
def submit_contact (payload : ContactMessage) (now : Nat) (db : Option DB)
    (insertResult : Except String String) :
    ContactResponse × Option ContactDoc :=
  let data : ContactDoc :=
    { name := payload.name, email := payload.email, company := payload.company,
      message := payload.message, topic := payload.topic, received_at := now }
  match db with
  | some _ =>
    match insertResult with
    | .ok docId => (.ok (some docId), some data)
    | .error e => (.httpError 500 e, none)
  | none => (.ok none, none)

/-- The `[:50]` truncation main.py applies to error text elsewhere (the
`/test` endpoint, lines 203 and 205); stated here to compare against the
untruncated `detail=str(e)` of `submit_contact`. -/
def truncatedDetail (s : String) : String := ⟨s.toList.take 50⟩

/-- The typed record `Metric(**SEED_METRICS[0])` evaluates to. -/
def seedMetric (tload : Nat) : Metric :=
  { platform := "Instagram", followers := 1250000, avg_views := 1500000,
    engagement_rate := mkRat 87 10, last_updated := tload }

/-- The typed record `Reel(**SEED_REELS[0])` evaluates to when constructed at
time `n`. -/
def seedReel1 (n : Nat) : Reel :=
  { id := none, title := "Pad work with a twist",
    thumbnail_url :=
      "https://images.unsplash.com/photo-1605296867304-46d5465a13f1?q=80&w=1200&auto=format&fit=crop",
    video_url := some "https://www.example.com/reel1.mp4",
    views := 2300000, likes := 340000,
    hashtags := ["#muaythai", "#twerk", "#funnytraining"], posted_at := n }

/-- The typed record `Reel(**SEED_REELS[1])` evaluates to when constructed at
time `n`. -/
def seedReel2 (n : Nat) : Reel :=
  { id := none, title := "Elbows, knees & giggles",
    thumbnail_url :=
      "https://images.unsplash.com/photo-1544916601-0aa3f82a1f2d?q=80&w=1200&auto=format&fit=crop",
    video_url := some "https://www.example.com/reel2.mp4",
    views := 1800000, likes := 280000,
    hashtags := ["#muaythai", "#reels", "#songpengsawang"], posted_at := n }

/-- A `Reel` with the request-time `posted_at` field removed, to state which
fields of the fallback reels are stable across calls. -/
structure ReelCore where
  id : Option String
  title : String
  thumbnail_url : String
  video_url : Option String
  views : Int
  likes : Int
  hashtags : List String
deriving DecidableEq, Repr

/-- Forget a reel's `posted_at` field. -/
def Reel.core (r : Reel) : ReelCore :=
  { id := r.id, title := r.title, thumbnail_url := r.thumbnail_url,
    video_url := r.video_url, views := r.views, likes := r.likes,
    hashtags := r.hashtags }

/-- A store with all three collections empty. -/
def emptyDB : DB := { metric := [], reel := [], contact := [] }

/-- A store holding exactly the seed documents, as left by a fault-free
seeding of an empty store at time `t`. -/
def seededDB (t : Nat) : DB :=
  { metric := SEED_METRICS t, reel := SEED_REELS, contact := [] }

/-- Number of records in a read response (0 when the request errored). -/
def reelCount (r : Except Err (List Reel)) : Nat :=
  match r with
  | .ok l => l.length
  | .error _ => 0

/-! ### Helper lemmas -/

lemma mapE_ok_length {α β ε : Type} (f : α → Except ε β) :
    ∀ (xs : List α) (ys : List β), mapE f xs = .ok ys → ys.length = xs.length := by
  intro xs
  induction xs with
  | nil =>
    intro ys h
    simp only [mapE] at h
    cases h
    rfl
  | cons x xs ih =>
    intro ys h
    unfold mapE at h
    cases hf : f x with
    | error e => rw [hf] at h; cases h
    | ok y =>
      rw [hf] at h
      cases hm : mapE f xs with
      | error e => rw [hm] at h; cases h
      | ok zs =>
        rw [hm] at h
        cases h
        simp [ih zs hm]

lemma seedMetrics_validate (n t : Nat) :
    mapE (fun m => Metric.validate m n) (SEED_METRICS t) = .ok [seedMetric t] := rfl

lemma seedReels_validate (n : Nat) :
    mapE (fun r => Reel.validate none r n) SEED_REELS =
      .ok [seedReel1 n, seedReel2 n] := rfl

lemma pySliceTo_length_le {α : Type} (k : Int) (xs : List α) :
    (pySliceTo k xs).length ≤ xs.length := by
  unfold pySliceTo
  split <;> simp [List.length_take]

lemma pySliceTo_map {α β : Type} (f : α → β) (k : Int) (xs : List α) :
    List.map f (pySliceTo k xs) = pySliceTo k (List.map f xs) := by
  unfold pySliceTo
  split <;> simp [List.map_take]

lemma storeReadLimit_toNat_le (lim : Int) : (storeReadLimit lim).toNat ≤ 50 := by
  have h := min_le_right lim 50
  unfold storeReadLimit
  omega

lemma get_documents_length_le {α : Type} (coll : List α) (lim : Int) :
    (get_documents coll lim).length ≤ (min lim 50).toNat := by
  unfold get_documents
  split
  · simp
  · simp [List.length_take]

lemma reelCount_get_reels_le (lim : Int) (st : Fetch StoreReelDoc) (n : Nat) :
    reelCount (get_reels lim st n) ≤ max (storeReadLimit lim).toNat 2 := by
  cases hA : reelsAttempt lim st n with
  | ok items =>
    cases st with
    | unavailable => simp [reelsAttempt] at hA
    | failure m => simp [reelsAttempt] at hA
    | docs ds =>
      simp only [get_reels, hA, reelCount]
      have hA' : mapE (fun d => Reel.validate d.oid d.fields n)
          (get_documents ds (storeReadLimit lim)) = .ok items := hA
      have hl := mapE_ok_length _ _ _ hA'
      have hg := get_documents_length_le ds (storeReadLimit lim)
      have hmin : min (storeReadLimit lim) 50 = storeReadLimit lim :=
        min_eq_left (min_le_right lim 50)
      rw [hl]
      rw [hmin] at hg
      exact le_trans hg (le_max_left _ _)
  | error e =>
    simp only [get_reels, hA, seedReels_validate, reelCount]
    have h := pySliceTo_length_le lim [seedReel1 n, seedReel2 n]
    simp only [List.length_cons, List.length_nil] at h
    exact le_trans h (by omega)

lemma seed_data_some (t : Nat) (s : DB) :
    seed_data t (some s) = some
      { s with
        metric := if s.metric.length = 0 then s.metric ++ SEED_METRICS t
                  else s.metric,
        reel := if s.reel.length = 0 then s.reel ++ SEED_REELS else s.reel } := by
  unfold seed_data seed_data_f seedMetricsStep seedReelsStep
  by_cases hm : s.metric.length = 0 <;> by_cases hr : s.reel.length = 0 <;>
    simp [hm, hr, StepResult.state]

/-! ### Concrete sample inputs -/

/-- A store-returned metric document that fails validation: a corrupt record
with a negative `followers` count. -/
def badMetricDoc : StoreMetricDoc :=
  { oid := some "64f1c3a9", fields :=
    { platform := some "Instagram", followers := some (-1),
      avg_views := some 0, engagement_rate := some (mkRat 0 1),
      last_updated := some 3 } }

/-- A store-returned reel document that fails validation: its
`thumbnail_url` is not a well-formed URL. -/
def badReelStoreDoc : StoreReelDoc :=
  { oid := none, fields := { title := some "x", thumbnail_url := some "notaurl" } }

/-- A valid contact message. -/
def contactSampleA : ContactMessage :=
  { name := "Ana", email := "ana@example.com", message := "Hello" }

/-- An insert error description longer than 50 characters. -/
def longErrMsg : String :=
  "Database insert failed: connection reset by peer while writing to collection contactmessage"

/-- A raw client contact payload (no smuggled fields). -/
def rawContactSample : ContactPayloadRaw :=
  { name := some "Ana", email := some "ana@example.com", message := some "Hi" }

/-- The typed message `rawContactSample` validates to. -/
def contactSampleB : ContactMessage :=
  { name := "Ana", email := "ana@example.com", message := "Hi" }

/-- The document stored for `contactSampleB` submitted at server time 7. -/
def storedContactSample : ContactDoc :=
  { name := "Ana", email := "ana@example.com", company := none,
    message := "Hi", topic := none, received_at := 7 }

/-! ### Claims -/

/-- C1 (counterexample): `badMetricDoc` is a store-returned document whose
`Metric(**d)` construction raises a `ValidationError`, yet `GET /metrics`
neither surfaces the error nor avoids the Fallback Catalog: it answers `ok`
with exactly the fallback records, the same response as when the store is
unavailable. -/
theorem C1_counterexample :
    Metric.validate badMetricDoc.fields 5 = .error (.validationError "followers") ∧
    get_metrics (.docs [badMetricDoc]) 5 9 = .ok [seedMetric 9] ∧
    get_metrics (.docs [badMetricDoc]) 5 9 = get_metrics .unavailable 5 9 :=
  ⟨rfl, rfl, rfl⟩

/-- C1 (amended): on `GET /metrics` and `GET /reels`, a `ValidationError`
raised while building a typed record from a store-returned document is caught
by the same catch-all as store failures, so the response substitutes the
Fallback Catalog exactly as on `StoreUnavailable`, instead of surfacing the
error. -/
theorem C1_validationError_falls_back
    (mds : List StoreMetricDoc) (rds : List StoreReelDoc) (lim : Int)
    (n t : Nat) (fm fr : String) :
    (metricsAttempt (.docs mds) n = .error (.validationError fm) →
      get_metrics (.docs mds) n t = get_metrics .unavailable n t) ∧
    (reelsAttempt lim (.docs rds) n = .error (.validationError fr) →
      get_reels lim (.docs rds) n = get_reels lim .unavailable n) := by
  constructor
  · intro h
    simp only [get_metrics, h]
    rfl
  · intro h
    simp only [get_reels, h]
    rfl

/-- C1 (witness): the amended theorem applied to the two concrete invalid
store documents. -/
theorem C1_witness :
    get_metrics (.docs [badMetricDoc]) 5 9 = get_metrics .unavailable 5 9 ∧
    get_reels 20 (.docs [badReelStoreDoc]) 5 = get_reels 20 .unavailable 5 :=
  ⟨(C1_validationError_falls_back [badMetricDoc] [badReelStoreDoc] 20 5 9
      "followers" "thumbnail_url").1 rfl,
   (C1_validationError_falls_back [badMetricDoc] [badReelStoreDoc] 20 5 9
      "followers" "thumbnail_url").2 rfl⟩

/-- C2 (confirmed): when the Metric and Reel collections are already
non-empty, `seed_data` performs no insert; and seeding is idempotent on every
store state, so a second run leaves exactly the records of the first. -/
theorem C2_seeder_idempotent (t : Nat) (s : DB)
    (hm : s.metric ≠ []) (hr : s.reel ≠ []) :
    seed_data t (some s) = some s ∧
    ∀ db : Option DB, seed_data t (seed_data t db) = seed_data t db := by
  constructor
  · rw [seed_data_some]
    have hm' : ¬ s.metric.length = 0 := by
      simpa using fun h => hm (List.length_eq_zero.mp h)
    have hr' : ¬ s.reel.length = 0 := by
      simpa using fun h => hr (List.length_eq_zero.mp h)
    rw [if_neg hm', if_neg hr']
  · intro db
    cases db with
    | none => rfl
    | some s0 =>
      rw [seed_data_some t s0, seed_data_some]
      by_cases hm0 : s0.metric.length = 0 <;> by_cases hr0 : s0.reel.length = 0 <;>
        simp [hm0, hr0, SEED_METRICS, SEED_REELS]

/-- C2 (witness): the theorem applied at a store already holding the seed
documents. -/
theorem C2_witness :
    seed_data 4 (some (seededDB 4)) = some (seededDB 4) :=
  (C2_seeder_idempotent 4 (seededDB 4) (by decide) (by decide)).1

/-- C3 (counterexample): against an empty configured store, a raising
`ensure_indexes` leaves both collections unseeded, and a raising metric
insert leaves the Reel collection unseeded — while the fault-free run seeds
both. Each step therefore does abort the later ones. -/
theorem C3_counterexample :
    on_startup { indexFail := true } 0 (some emptyDB) = some emptyDB ∧
    on_startup { metricInsertFail := true } 0 (some emptyDB) = some emptyDB ∧
    on_startup {} 0 (some emptyDB) = some (seededDB 0) :=
  ⟨rfl, rfl, rfl⟩

/-- C3 (amended): the startup sequence is fault-tolerant only as a whole —
every error is swallowed, so startup itself never fails — but the steps are
not independent: an error while ensuring indexes skips all seeding, and an
error while seeding the Metric collection skips the Reel seeding. -/
theorem C3_startup_fault_behavior (f : Faults) (t : Nat) (s : DB) :
    on_startup f t none = none ∧
    (f.indexFail = true → on_startup f t (some s) = some s) ∧
    (f.indexFail = false → f.metricInsertFail = true → s.metric = [] →
      on_startup f t (some s) = some s) := by
  refine ⟨rfl, ?_, ?_⟩
  · intro h
    simp [on_startup, ensure_indexes, h]
  · intro h1 h2 h3
    simp [on_startup, ensure_indexes, h1, seed_data_f, seedMetricsStep, h2, h3,
      StepResult.state]

/-- C3 (witness): the amended theorem applied to an empty store with an index
fault, and with a metric-insert fault. -/
theorem C3_witness :
    on_startup { indexFail := true } 1 (some emptyDB) = some emptyDB ∧
    on_startup { metricInsertFail := true } 1 (some emptyDB) = some emptyDB :=
  ⟨(C3_startup_fault_behavior { indexFail := true } 1 emptyDB).2.1 rfl,
   (C3_startup_fault_behavior { metricInsertFail := true } 1 emptyDB).2.2
     rfl rfl rfl⟩

/-- C4 (confirmed): the limit passed to the store read is `min(limit, 50)`,
never above 50, and a `GET /reels` answer served from a connected store holds
at most 50 records, whatever limit the caller requested. -/
theorem C4_reels_capped (lim : Int) (ds : List StoreReelDoc) (n : Nat) :
    storeReadLimit lim ≤ 50 ∧ reelCount (get_reels lim (.docs ds) n) ≤ 50 := by
  refine ⟨min_le_right _ _, ?_⟩
  have h := reelCount_get_reels_le lim (.docs ds) n
  exact le_trans h (max_le (storeReadLimit_toNat_le lim) (by norm_num))

/-- C5 (counterexample): `limit = -1` is ≤ 0, yet the fallback path of
`GET /reels` answers one record, not the empty sequence: Python
`SEED_REELS[:-1]` keeps the first seed reel. -/
theorem C5_counterexample :
    (-1 : Int) ≤ 0 ∧ get_reels (-1) .unavailable 0 = .ok [seedReel1 0] ∧
    ([seedReel1 0] : List Reel) ≠ [] :=
  ⟨by norm_num, rfl, by decide⟩

/-- C5 (amended): a limit ≤ 0 yields an empty answer without error on the
connected path, and `limit = 0` or `limit ≤ -2` also on the fallback path;
but on the fallback path `limit = -1` yields the first seed reel, because the
fallback applies Python slice semantics `[:limit]` to the 2-element catalog. -/
theorem C5_nonpositive_limit (lim : Int) (ds : List StoreReelDoc) (n : Nat) :
    (lim ≤ 0 → get_reels lim (.docs ds) n = .ok []) ∧
    get_reels 0 .unavailable n = .ok [] ∧
    (lim ≤ -2 → get_reels lim .unavailable n = .ok []) ∧
    get_reels (-1) .unavailable n = .ok [seedReel1 n] := by
  refine ⟨?_, rfl, ?_, rfl⟩
  · intro h
    have hsl : storeReadLimit lim ≤ 0 := le_trans (min_le_left _ _) h
    simp [get_reels, reelsAttempt, get_documents, if_pos hsl, mapE]
  · intro h
    have h0 : ¬ (0 ≤ lim) := by omega
    simp only [get_reels, reelsAttempt, seedReels_validate, pySliceTo,
      if_neg h0]
    have h2 : ((List.length [seedReel1 n, seedReel2 n] : Int) + lim).toNat
        = 0 := by
      simp only [List.length_cons, List.length_nil]
      omega
    rw [h2]
    rfl

/-- C5 (witness): the amended theorem applied at limit `-3` on both paths. -/
theorem C5_witness :
    get_reels (-3) (.docs []) 0 = .ok [] ∧
    get_reels (-3) .unavailable 0 = .ok [] :=
  ⟨(C5_nonpositive_limit (-3) [] 0).1 (by norm_num),
   (C5_nonpositive_limit (-3) [] 0).2.2.1 (by norm_num)⟩

/-- C6 (confirmed): with the store handle unconfigured (`db is None`),
`POST /contact` answers `{status: "ok", id: null}` for every valid payload,
stores nothing, and the outcome is the same whatever any store insert would
have returned — no store interaction happens and no error is raised. -/
theorem C6_contact_unconfigured (p : ContactMessage) (n : Nat)
    (ins : Except String String) :
    submit_contact p n none ins = (.ok none, none) := rfl

/-- C7 (counterexample): an insert failure whose description is longer than
the 50-character truncation used elsewhere in the source is surfaced in full:
the 500 response's detail is `str(e)` itself, not a truncation of it. -/
theorem C7_counterexample :
    (submit_contact contactSampleA 3 (some emptyDB) (.error longErrMsg)).fst
      = .httpError 500 longErrMsg ∧
    truncatedDetail longErrMsg ≠ longErrMsg :=
  ⟨rfl, by decide⟩

/-- C7 (amended): when the configured store's insert raises `e`,
`POST /contact` surfaces a 500-class response whose detail is the full
description `str(e)` of the underlying error. -/
theorem C7_contact_error_full_detail (p : ContactMessage) (n : Nat) (s : DB)
    (e : String) :
    (submit_contact p n (some s) (.error e)).fst = .httpError 500 e := rfl

/-- C8 (counterexample): two invocations of the `GET /reels` fallback path at
different times return structurally different record sequences — every field
matches except `posted_at`, which is freshly assigned on each call. -/
theorem C8_counterexample :
    get_reels 20 .unavailable 0 = .ok [seedReel1 0, seedReel2 0] ∧
    get_reels 20 .unavailable 1 = .ok [seedReel1 1, seedReel2 1] ∧
    get_reels 20 .unavailable 0 ≠ get_reels 20 .unavailable 1 :=
  ⟨rfl, rfl, by decide⟩

/-- C8 (amended): the fallback Metric records are structurally identical
across calls (their `last_updated` was fixed when the module loaded), and the
fallback Reel records are identical across calls in every field except
`posted_at`, which is set to each call's construction time. -/
theorem C8_fallback_stability (t n1 n2 : Nat) (lim : Int) :
    get_metrics .unavailable n1 t = get_metrics .unavailable n2 t ∧
    (get_reels lim .unavailable n1).map (List.map Reel.core)
      = (get_reels lim .unavailable n2).map (List.map Reel.core) := by
  refine ⟨rfl, ?_⟩
  have h : ∀ m : Nat, (get_reels lim .unavailable m).map (List.map Reel.core)
      = .ok (pySliceTo lim [(seedReel1 0).core, (seedReel2 0).core]) := by
    intro m
    have hg : get_reels lim .unavailable m
        = .ok (pySliceTo lim [seedReel1 m, seedReel2 m]) := by
      simp [get_reels, reelsAttempt, seedReels_validate]
    rw [hg]
    simp only [Except.map]
    rw [pySliceTo_map]
    rfl
  rw [h n1, h n2]

/-- C9 (confirmed): a client-supplied `received_at` is ignored by payload
validation (the pydantic model has no such field), and whatever document
`POST /contact` stores carries the server-assigned submission time as its
`received_at`. -/
theorem C9_received_at_server_assigned (raw : ContactPayloadRaw)
    (x : Option Nat) (p : ContactMessage) (n : Nat) (db : Option DB)
    (ins : Except String String) :
    ContactMessage.validate { raw with received_at := x }
      = ContactMessage.validate raw ∧
    ∀ d : ContactDoc, (submit_contact p n db ins).snd = some d →
      d.received_at = n := by
  constructor
  · cases raw
    rfl
  · intro d h
    cases db with
    | none => simp [submit_contact] at h
    | some s =>
      cases ins with
      | ok i =>
        simp [submit_contact] at h
        rw [← h]
      | error e => simp [submit_contact] at h

/-- C9 (witness): the theorem applied to a concrete payload smuggling
`received_at = 42`, submitted at server time 7. -/
theorem C9_witness :
    ContactMessage.validate { rawContactSample with received_at := some 42 }
      = ContactMessage.validate rawContactSample ∧
    storedContactSample.received_at = 7 :=
  ⟨(C9_received_at_server_assigned rawContactSample (some 42) contactSampleB 7
      (some emptyDB) (.ok "abc")).1,
   (C9_received_at_server_assigned rawContactSample (some 42) contactSampleB 7
      (some emptyDB) (.ok "abc")).2 storedContactSample rfl⟩

/-- C10 (confirmed): with no limit parameter the Python default 20 applies:
the store read is issued with limit `min(20, 50) = 20` and the response holds
at most 20 records, on every store outcome. -/
theorem C10_default_limit (st : Fetch StoreReelDoc) (n : Nat) :
    storeReadLimit reelsDefaultLimit = 20 ∧
    reelCount (get_reels reelsDefaultLimit st n) ≤ 20 := by
  refine ⟨rfl, ?_⟩
  have h := reelCount_get_reels_le reelsDefaultLimit st n
  have h2 : (storeReadLimit reelsDefaultLimit).toNat = 20 := rfl
  rw [h2] at h
  exact le_trans h (max_le (le_refl 20) (by norm_num))

end Backend
